import Mathlib

/-!
# FoloUp credit-billing core: shallow embedding and verification

This file embeds the credit-ledger and billing-event logic of the FoloUp
repository in Lean 4 and proves (or refutes) the specified properties.

The embedded code:
* `credits.service.ts` (src/unnamed/part_001): `getCreditBalance`, `addCredits`,
  `deductCredits` over the `user`/`organization` tables' `credits` column and
  the append-only `credit_transactions` table.
* `billing.service.ts` (src/unnamed/part_004): `calculateInterviewCost`,
  `getOrganizationCreditBalanceFromDB`, `updateOrganizationCreditBalanceInDB`,
  `getRawCreditBalanceForUpdate`, `addCreditsToOrganization`,
  `processEventWithCredits`, `createBillableEvent` over the
  `organization_credits` and `billable_events` tables.
* `app/api/billing/webhook/route.ts`: the `order_created` branch of the
  Lemonsqueezy webhook handler over the `credit_purchases` table.

Modelling conventions:
* Money is `ℚ` (JS numbers at the repository's magnitudes behave exactly like
  the rationals on every value these claims mention).
* Each Supabase table is an association list; a PostgREST UPDATE filtered by a
  key rewrites the matching rows in place and reports *no error* when zero rows
  match (only I/O failures produce an `error`); `.single()` reads report
  `PGRST116` when no row matches; inserts violating a unique constraint report
  `23505`.  The store itself is modelled fault-free: claims quantify over
  completed operations.
* The `DB` state carries two ghost trace fields, `balanceOps` (every access to
  the `organization_credits` balance store) and `creditCalls` (every invocation
  of `addCreditsToOrganization`), used to state "never touches the store" /
  "performs no crediting call" properties; no embedded function reads them.
-/

namespace FoloUp

/-- Which table of the credit service a billing entity lives in
(`user` or `organization`, part_001 line 10). -/
inductive EntityType where
  | user
  | organization
deriving DecidableEq, Repr

/-- A row of the `organization_credits` table (part_004 line 86):
`current_balance_usd` and the `initial_credit_applied` flag. -/
structure CreditRecord where
  current_balance_usd : ℚ
  initial_credit_applied : Bool
deriving DecidableEq, Repr

/-- A row of the append-only `credit_transactions` table (schema part_010):
signed `amount`, free-form `type`. -/
structure CreditTx where
  entityType : EntityType
  entityId : String
  amount : ℚ
  txType : String
deriving DecidableEq, Repr

/-- A row of the `billable_events` table (part_004 `BillableEventData`). -/
structure BillableEventData where
  id : String
  organization_id : String
  interview_id : String
  response_id : String
  duration_seconds : ℚ
  cost_usd : ℚ
  status : String
deriving DecidableEq, Repr

/-- A row of the `credit_purchases` table (webhook route): primary key `id`,
unique `lemonsqueezy_order_id`. -/
structure CreditPurchase where
  id : String
  lemonsqueezy_order_id : String
  organization_id : String
  amount_usd : ℚ
  credits_granted : ℤ
  status : String
deriving DecidableEq, Repr

/-- Ghost trace entry: one access to the `organization_credits` balance store. -/
inductive BalanceOp where
  | read (org : String)
  | write (org : String) (v : ℚ)
  | insertRec (org : String) (r : CreditRecord)
deriving DecidableEq, Repr

/-- The persistent state all embedded functions act on. -/
structure DB where
  orgCredits : List (String × CreditRecord)
  userTbl : List (String × ℚ)
  orgTbl : List (String × ℚ)
  creditTransactions : List CreditTx
  billableEvents : List BillableEventData
  creditPurchases : List CreditPurchase
  balanceOps : List BalanceOp
  creditCalls : List (String × ℚ)
deriving DecidableEq, Repr

/-- A `SELECT ... WHERE key = k ... single()` read of a keyed table:
the first row with the key, `none` when no row matches (PGRST116). -/
def tblGet {α : Type} : List (String × α) → String → Option α
  | [], _ => none
  | (k, v) :: rest, key => if k = key then some v else tblGet rest key

/-- An SQL `UPDATE ... WHERE key = k` setting the whole value: rewrites every
matching row in place; zero matching rows is not an error (PostgREST returns
success with no rows). -/
def tblSet {α : Type} : List (String × α) → String → α → List (String × α)
  | [], _, _ => []
  | (k, r) :: rest, key, v =>
      (k, if k = key then v else r) :: tblSet rest key v

/-- Models `UPDATE organization_credits SET current_balance_usd = v WHERE
organization_id = key`: only the balance column changes, the
`initial_credit_applied` flag is kept; zero matching rows is not an error. -/
def updateBalanceColumn :
    List (String × CreditRecord) → String → ℚ → List (String × CreditRecord)
  | [], _, _ => []
  | (k, r) :: rest, key, v =>
      (k, if k = key then { r with current_balance_usd := v } else r) ::
        updateBalanceColumn rest key v

/-! ## Cost calculator (part_004 lines 54-62) -/

/-- Models `parseFloat(cost.toFixed(4))` for the nonnegative values produced here:
ECMAScript `toFixed` picks the integer `n` with `n / 10^4` closest to the
value, the larger `n` on ties, i.e. round half up, which on nonnegative
values is round half away from zero. -/
def toFixed4 (x : ℚ) : ℚ := (⌊x * 10000 + 1 / 2⌋ : ℚ) / 10000

/-- The function `calculateInterviewCost` (part_004 lines 54-62): 0 for nonpositive
durations, otherwise `(seconds / 600) * 2` dollars rounded to 4 decimals. -/
def calculateInterviewCost (actual_call_duration_seconds : ℚ) : ℚ :=
  if actual_call_duration_seconds ≤ 0 then 0
  else toFixed4 (actual_call_duration_seconds / 600 * 2)

/-- Rounding to 4 decimal places, half away from zero — the spec's wording,
defined independently of the code for comparison. -/
def round4AwayFromZero (x : ℚ) : ℚ :=
  ((if 0 ≤ x then ⌊x * 10000 + 1 / 2⌋ else -⌊-x * 10000 + 1 / 2⌋ : ℤ) : ℚ) / 10000

/-! ## Credit service (part_001): `user`/`organization`.credits plus ledger -/

/-- The table the credit service uses for an entity type (part_001 line 10). -/
def entityTbl (db : DB) : EntityType → List (String × ℚ)
  | .user => db.userTbl
  | .organization => db.orgTbl

/-- The function `getCreditBalance` (part_001 lines 6-26): `select('credits').single()`;
any error — including no matching row — yields 0. -/
def getCreditBalance (db : DB) (entityType : EntityType) (entityId : String) : ℚ :=
  match tblGet (entityTbl db entityType) entityId with
  | none => 0
  | some c => c

/-- The function `addCredits` (part_001 lines 28-73): read the balance, `UPDATE` the
`credits` column (a zero-row match is a silent success), then insert one
`credit_transactions` row with the signed amount; returns `true` on success
(the fault-free store never reports an I/O error). -/
def addCredits (db : DB) (entityType : EntityType) (entityId : String)
    (amountToAdd : ℚ) (transactionType : String) : Bool × DB :=
  let currentBalance := getCreditBalance db entityType entityId
  let newBalance := currentBalance + amountToAdd
  let db1 :=
    match entityType with
    | .user => { db with userTbl := tblSet db.userTbl entityId newBalance }
    | .organization => { db with orgTbl := tblSet db.orgTbl entityId newBalance }
  (true,
   { db1 with creditTransactions :=
      db1.creditTransactions ++ [⟨entityType, entityId, amountToAdd, transactionType⟩] })

/-- The function `deductCredits` (part_001 lines 76-89): rejects nonpositive amounts,
otherwise `addCredits` with the negated amount. -/
def deductCredits (db : DB) (entityType : EntityType) (entityId : String)
    (amountToDeduct : ℚ) (transactionType : String) : Bool × DB :=
  if amountToDeduct ≤ 0 then (false, db)
  else addCredits db entityType entityId (-amountToDeduct) transactionType

/-- Signed sum of the rows of a `credit_transactions` list belonging to one
entity. -/
def txSum (l : List CreditTx) (entityType : EntityType) (entityId : String) : ℚ :=
  ((l.filter fun t => t.entityType == entityType && t.entityId == entityId).map
    (fun t => t.amount)).sum

/-- Signed sum of the `credit_transactions` rows of one entity. -/
def ledgerSum (db : DB) (entityType : EntityType) (entityId : String) : ℚ :=
  txSum db.creditTransactions entityType entityId

/-! ## Supabase-backed credit system (part_004) -/

/-- The $2.00 initial credit constant (part_004 line 39). -/
def INITIAL_CREDIT_AMOUNT_USD : ℚ := 2

/-- The function `getOrganizationCreditBalanceFromDB` (part_004 lines 88-158): a
`.single()` read of `organization_credits`; on `PGRST116` (no row) insert a
fresh record carrying the initial credit and return it; on a row whose
`initial_credit_applied` is `false` add the initial credit, flip the flag and
return the new balance; otherwise return the stored balance unchanged. -/
def getOrganizationCreditBalanceFromDB (db : DB) (organizationId : String) :
    ℚ × DB :=
  match tblGet db.orgCredits organizationId with
  | none =>
      (INITIAL_CREDIT_AMOUNT_USD,
       { db with
          orgCredits := db.orgCredits ++
            [(organizationId, ⟨INITIAL_CREDIT_AMOUNT_USD, true⟩)],
          balanceOps := db.balanceOps ++
            [.read organizationId,
             .insertRec organizationId ⟨INITIAL_CREDIT_AMOUNT_USD, true⟩] })
  | some r =>
      if r.initial_credit_applied = false then
        let newBalance := r.current_balance_usd + INITIAL_CREDIT_AMOUNT_USD
        (newBalance,
         { db with
            orgCredits := tblSet db.orgCredits organizationId ⟨newBalance, true⟩,
            balanceOps := db.balanceOps ++
              [.read organizationId, .write organizationId newBalance] })
      else
        (r.current_balance_usd,
         { db with balanceOps := db.balanceOps ++ [.read organizationId] })

/-- The function `updateOrganizationCreditBalanceInDB` (part_004 lines 163-174): a supabase
`UPDATE` of `current_balance_usd` filtered by `organization_id`, without
`.single()`.  PostgREST reports an error only on I/O failure — an update
matching zero rows succeeds with no rows — so the function throws only on
store faults and, when no record exists, resolves successfully while writing
nothing. -/
def updateOrganizationCreditBalanceInDB (db : DB) (organizationId : String)
    (newBalance : ℚ) : Except String DB :=
  .ok { db with
        orgCredits := updateBalanceColumn db.orgCredits organizationId newBalance,
        balanceOps := db.balanceOps ++ [.write organizationId newBalance] }

/-- The function `getRawCreditBalanceForUpdate` (part_004 lines 181-208): a `.single()` read
of `current_balance_usd` alone; `PGRST116` (no row) yields 0; no write. -/
def getRawCreditBalanceForUpdate (db : DB) (organizationId : String) : ℚ × DB :=
  match tblGet db.orgCredits organizationId with
  | none => (0, { db with balanceOps := db.balanceOps ++ [.read organizationId] })
  | some r =>
      (r.current_balance_usd,
       { db with balanceOps := db.balanceOps ++ [.read organizationId] })

/-- The function `addCreditsToOrganization` (part_004 lines 214-265): rejects nonpositive
amounts; then calls `getOrganizationCreditBalanceFromDB` (line 240; the value
is unused but the record-creating side effect happens), then the raw balance
read, then the unconditional balance update with `current + amount`.
Appends the invocation to the ghost `creditCalls` trace. -/
def addCreditsToOrganization (db : DB) (organizationId : String)
    (amount_usd : ℚ) : Except String DB :=
  let db0 := { db with creditCalls := db.creditCalls ++ [(organizationId, amount_usd)] }
  if amount_usd ≤ 0 then .error "Credit amount must be a positive number."
  else
    let db1 := (getOrganizationCreditBalanceFromDB db0 organizationId).2
    let raw := getRawCreditBalanceForUpdate db1 organizationId
    updateOrganizationCreditBalanceInDB raw.2 organizationId (raw.1 + amount_usd)

/-- The function `updateBillableEventStatus` (part_004 lines 64-79): `UPDATE billable_events
SET status = s WHERE id = eventId`. -/
def updateBillableEventStatus (db : DB) (eventId status : String) : DB :=
  { db with billableEvents :=
      db.billableEvents.map fun e =>
        if e.id = eventId then { e with status := status } else e }

/-- The function `processEventWithCredits` (part_004 lines 269-294): zero-cost events are
marked `no_charge` with no balance access; otherwise read the balance (with
its initial-grant side effects), and either deduct and mark `paid_by_credits`
or mark `payment_failed_insufficient_credits`. -/
def processEventWithCredits (db : DB) (billableEvent : BillableEventData) :
    Except String DB :=
  if billableEvent.cost_usd = 0 then
    .ok (updateBillableEventStatus db billableEvent.id "no_charge")
  else
    let got := getOrganizationCreditBalanceFromDB db billableEvent.organization_id
    if billableEvent.cost_usd ≤ got.1 then
      match updateOrganizationCreditBalanceInDB got.2 billableEvent.organization_id
          (got.1 - billableEvent.cost_usd) with
      | .ok db2 => .ok (updateBillableEventStatus db2 billableEvent.id "paid_by_credits")
      | .error e => .error e
    else
      .ok (updateBillableEventStatus got.2 billableEvent.id
            "payment_failed_insufficient_credits")

/-- The `DB` reached by a completed `processEventWithCredits` run (with the
fault-free store the run always completes). -/
def afterProcess (db : DB) (billableEvent : BillableEventData) : DB :=
  ((processEventWithCredits db billableEvent).toOption).getD db

/-- The function `createBillableEvent` (part_004 lines 297-341): the caller-supplied
`cost_usd` argument is ignored; the stored cost is always
`calculateInterviewCost(duration_seconds)`; the row is inserted with status
`pending_credit_check` and then processed with credits.  The database
generates the row id; modelled as a fresh id derived from the table size.
Returns the inserted rows and the final state. -/
def createBillableEvent (db : DB) (organization_id interview_id response_id : String)
    (duration_seconds : ℚ) (cost_usd : ℚ) :
    Option (List BillableEventData) × Except String DB :=
  let calculated_cost_usd := calculateInterviewCost duration_seconds
  let newEvent : BillableEventData :=
    { id := "evt" ++ toString db.billableEvents.length,
      organization_id := organization_id,
      interview_id := interview_id,
      response_id := response_id,
      duration_seconds := duration_seconds,
      cost_usd := calculated_cost_usd,
      status := "pending_credit_check" }
  let db1 := { db with billableEvents := db.billableEvents ++ [newEvent] }
  (some [newEvent], processEventWithCredits db1 newEvent)

/-- The stored `current_balance_usd` of an organization, `none` when no
`organization_credits` row exists. -/
def orgBalance (db : DB) (organizationId : String) : Option ℚ :=
  (tblGet db.orgCredits organizationId).map fun r => r.current_balance_usd

/-- The status of the first `billable_events` row with the given id. -/
def eventStatus (db : DB) (eventId : String) : Option String :=
  (db.billableEvents.find? fun e => e.id == eventId).map fun e => e.status

/-! ## Lemonsqueezy billing webhook (`app/api/billing/webhook/route.ts`) -/

/-- An HTTP response produced by the webhook handler. -/
structure WebhookResponse where
  status : ℕ
  body : String
deriving DecidableEq, Repr

/-- Models `const amount_usd = typeof total === 'number' ? total / 100 : 0`
(route.ts line 124): `data.attributes.total` is in cents; a missing or
non-numeric total counts as 0. -/
def amountUsdOf (total : Option ℚ) : ℚ :=
  match total with
  | some t => t / 100
  | none => 0

/-- The `credits_granted` computation of the webhook (route.ts lines 127-133):
positive dollar amounts grant `Math.floor(amount_usd * 10)` credits
(10 credits per dollar, floored to an integer), otherwise 0. -/
def creditsForTotal (total : Option ℚ) : ℤ :=
  if 0 < amountUsdOf total then ⌊amountUsdOf total * 10⌋ else 0

/-- Models `UPDATE credit_purchases SET status = s WHERE id = purchaseId`. -/
def setPurchaseStatus (tbl : List CreditPurchase) (purchaseId status : String) :
    List CreditPurchase :=
  tbl.map fun p => if p.id = purchaseId then { p with status := status } else p

/-- The first `credit_purchases` row with the given id. -/
def purchaseById (db : DB) (purchaseId : String) : Option CreditPurchase :=
  db.creditPurchases.find? fun p => p.id == purchaseId

/-- The `order_created` branch of the billing webhook `POST`
(route.ts lines 123-215), after signature verification and extraction of
`lemonsqueezyOrderId`, `organizationId`, `creditPurchaseId` and
`total` (`none` models a missing or non-numeric `data.attributes.total`):
insert into `credit_purchases` (status `pending_processing`; a unique
constraint collision on the primary key or on `lemonsqueezy_order_id` yields
Postgres error `23505`, answered with a 200 "Duplicate event" response and no
further work); on a fresh insert call `addCreditsToOrganization` when
`credits_granted > 0`, then mark the purchase `processed` and answer 200; if
crediting throws, mark it `failed` and answer 500. -/
def webhookOrderCreated (db : DB)
    (lemonsqueezyOrderId organizationId creditPurchaseId : String)
    (total : Option ℚ) : WebhookResponse × DB :=
  let amount_usd : ℚ := amountUsdOf total
  let credits_granted : ℤ := creditsForTotal total
  if db.creditPurchases.any (fun p =>
      p.id == creditPurchaseId || p.lemonsqueezy_order_id == lemonsqueezyOrderId) then
    (⟨200, "Duplicate event: Already processed or being processed."⟩, db)
  else
    let db1 := { db with creditPurchases := db.creditPurchases ++
      [⟨creditPurchaseId, lemonsqueezyOrderId, organizationId, amount_usd,
        credits_granted, "pending_processing"⟩] }
    if 0 < credits_granted then
      match addCreditsToOrganization db1 organizationId (credits_granted : ℚ) with
      | .ok db2 =>
          (⟨200, "Webhook processed successfully."⟩,
           { db2 with creditPurchases :=
              setPurchaseStatus db2.creditPurchases creditPurchaseId "processed" })
      | .error _ =>
          (⟨500, "Failed to process credits for organization."⟩,
           { db1 with creditPurchases :=
              setPurchaseStatus db1.creditPurchases creditPurchaseId "failed" })
    else
      (⟨200, "Webhook processed successfully."⟩,
       { db1 with creditPurchases :=
          setPurchaseStatus db1.creditPurchases creditPurchaseId "processed" })

/-! ## C4 — cost calculator contract -/

/-- C4: the cost calculator returns 0 for every `usage_seconds ≤ 0`, and for
every `usage_seconds > 0` returns `(usage_seconds / 600) × 2` rounded to
4 decimal places half away from zero, deterministically; in particular
`cost(300) = 1.00`, `cost(600) = 2.00`, `cost(1) = 0.0033`,
`cost(121) = 0.4033`. -/
theorem C4_cost_calculator (s : ℚ) :
    (s ≤ 0 → calculateInterviewCost s = 0) ∧
    (0 < s → calculateInterviewCost s = round4AwayFromZero (s / 600 * 2)) ∧
    calculateInterviewCost 300 = 1 ∧
    calculateInterviewCost 600 = 2 ∧
    calculateInterviewCost 1 = 33 / 10000 ∧
    calculateInterviewCost 121 = 4033 / 10000 := by
  refine ⟨fun h => by simp [calculateInterviewCost, h], fun h => ?_, ?_, ?_, ?_, ?_⟩
  · have hns : ¬ s ≤ 0 := not_le.mpr h
    have hx : (0 : ℚ) ≤ s / 600 * 2 := by positivity
    simp [calculateInterviewCost, toFixed4, round4AwayFromZero, hns, hx]
  all_goals norm_num [calculateInterviewCost, toFixed4]

/-- Witness for C4 at concrete durations 0 and 300. -/
theorem C4_cost_calculator_witness :
    ((0 : ℚ) ≤ 0 ∧ calculateInterviewCost 0 = 0) ∧
    ((0 : ℚ) < 300 ∧
      calculateInterviewCost 300 = round4AwayFromZero (300 / 600 * 2)) :=
  ⟨⟨le_refl 0, (C4_cost_calculator 0).1 (le_refl 0)⟩,
   ⟨by norm_num, (C4_cost_calculator 300).2.1 (by norm_num)⟩⟩

/-! ## C9 — the client-supplied cost is ignored -/

/-- C9: two invocations of `createBillableEvent` differing only in the
caller-supplied `cost_usd` argument produce identical results — the persisted
event, the final store state and every status effect — and the stored cost of
the inserted event is always `calculateInterviewCost duration_seconds`. -/
theorem C9_cost_not_client_supplied (db : DB)
    (organization_id interview_id response_id : String)
    (duration_seconds c1 c2 : ℚ) :
    createBillableEvent db organization_id interview_id response_id
        duration_seconds c1 =
      createBillableEvent db organization_id interview_id response_id
        duration_seconds c2 ∧
    (createBillableEvent db organization_id interview_id response_id
        duration_seconds c1).1.map (fun l => l.map fun e => e.cost_usd) =
      some [calculateInterviewCost duration_seconds] :=
  ⟨rfl, rfl⟩

/-! ## Helper lemmas -/

/-- The empty store. -/
def emptyDB : DB := ⟨[], [], [], [], [], [], [], []⟩

lemma find?_status_set (l : List BillableEventData) (eventId s : String)
    (h : ∃ e ∈ l, e.id = eventId) :
    (((l.map fun e => if e.id = eventId then { e with status := s } else e).find?
        fun e => e.id == eventId).map fun e => e.status) = some s := by
  induction l with
  | nil => simp at h
  | cons e t ih =>
      by_cases hc : e.id = eventId
      · simp [hc]
      · have h' : ∃ x ∈ t, x.id = eventId := by
          obtain ⟨x, hx, hxid⟩ := h
          rcases List.mem_cons.mp hx with rfl | hxt
          · exact absurd hxid hc
          · exact ⟨x, hxt, hxid⟩
        simpa [hc] using ih h'

lemma eventStatus_update (db : DB) (eventId s : String)
    (h : ∃ e ∈ db.billableEvents, e.id = eventId) :
    eventStatus (updateBillableEventStatus db eventId s) eventId = some s :=
  find?_status_set db.billableEvents eventId s h

/-! ## C7 — zero-cost events never touch the balance store -/

/-- C7: for every billable event whose computed cost is 0, processing ends the
event in status `no_charge` and performs no balance-store operation at all —
no read, no write and no initial-grant creation (the ghost `balanceOps` trace
is unchanged, and so is the `organization_credits` table). -/
theorem C7_zero_cost_no_charge (db : DB) (ev : BillableEventData)
    (hcost : ev.cost_usd = 0) (hmem : ev ∈ db.billableEvents) :
    processEventWithCredits db ev =
      .ok (updateBillableEventStatus db ev.id "no_charge") ∧
    eventStatus (afterProcess db ev) ev.id = some "no_charge" ∧
    (afterProcess db ev).balanceOps = db.balanceOps ∧
    (afterProcess db ev).orgCredits = db.orgCredits := by
  have h1 : processEventWithCredits db ev =
      .ok (updateBillableEventStatus db ev.id "no_charge") := by
    simp [processEventWithCredits, hcost]
  have h2 : afterProcess db ev = updateBillableEventStatus db ev.id "no_charge" := by
    simp [afterProcess, h1, Except.toOption]
  refine ⟨h1, ?_, ?_, ?_⟩
  · rw [h2]
    exact eventStatus_update db ev.id "no_charge" ⟨ev, hmem, rfl⟩
  · rw [h2]; rfl
  · rw [h2]; rfl

/-- Witness for C7: a concrete zero-cost event in a one-event store. -/
theorem C7_zero_cost_no_charge_witness :
    eventStatus
      (afterProcess
        { emptyDB with billableEvents :=
            [⟨"e1", "o1", "iv1", "r1", 0, 0, "pending_credit_check"⟩] }
        ⟨"e1", "o1", "iv1", "r1", 0, 0, "pending_credit_check"⟩) "e1" =
      some "no_charge" ∧
    (afterProcess
        { emptyDB with billableEvents :=
            [⟨"e1", "o1", "iv1", "r1", 0, 0, "pending_credit_check"⟩] }
        ⟨"e1", "o1", "iv1", "r1", 0, 0, "pending_credit_check"⟩).balanceOps = [] :=
  ⟨(C7_zero_cost_no_charge _ _ rfl (List.mem_singleton.mpr rfl)).2.1,
   (C7_zero_cost_no_charge _ _ rfl (List.mem_singleton.mpr rfl)).2.2.1⟩

lemma tblGet_append_of_none {α : Type} (l : List (String × α)) (k : String)
    (v : α) (h : tblGet l k = none) : tblGet (l ++ [(k, v)]) k = some v := by
  induction l with
  | nil => simp [tblGet]
  | cons p t ih =>
      rcases p with ⟨k', v'⟩
      by_cases hc : k' = k
      · simp [tblGet, hc] at h
      · rw [tblGet, if_neg hc] at h
        rw [List.cons_append, tblGet, if_neg hc]
        exact ih h

lemma tblGet_tblSet_self {α : Type} (l : List (String × α)) (k : String)
    (v : α) : tblGet (tblSet l k v) k = (tblGet l k).map fun _ => v := by
  induction l with
  | nil => simp [tblGet, tblSet]
  | cons p t ih =>
      rcases p with ⟨k', v'⟩
      by_cases hc : k' = k
      · simp [tblGet, tblSet, hc]
      · simp [tblGet, tblSet, hc, ih]

lemma tblGet_updateBalanceColumn_self (l : List (String × CreditRecord))
    (k : String) (v : ℚ) :
    tblGet (updateBalanceColumn l k v) k =
      (tblGet l k).map fun r => { r with current_balance_usd := v } := by
  induction l with
  | nil => simp [tblGet, updateBalanceColumn]
  | cons p t ih =>
      rcases p with ⟨k', v'⟩
      by_cases hc : k' = k
      · simp [tblGet, updateBalanceColumn, hc]
      · simp [tblGet, updateBalanceColumn, hc, ih]

/-- Unfolding: a balance read when no record exists (PGRST116 branch). -/
lemma getOrg_none (db : DB) (org : String)
    (h : tblGet db.orgCredits org = none) :
    getOrganizationCreditBalanceFromDB db org =
      (INITIAL_CREDIT_AMOUNT_USD,
       { db with
          orgCredits := db.orgCredits ++
            [(org, ⟨INITIAL_CREDIT_AMOUNT_USD, true⟩)],
          balanceOps := db.balanceOps ++
            [.read org, .insertRec org ⟨INITIAL_CREDIT_AMOUNT_USD, true⟩] }) := by
  simp [getOrganizationCreditBalanceFromDB, h]

/-- Unfolding: a balance read of a record whose grant flag is still `false`. -/
lemma getOrg_unapplied (db : DB) (org : String) (b : ℚ)
    (h : tblGet db.orgCredits org = some ⟨b, false⟩) :
    getOrganizationCreditBalanceFromDB db org =
      (b + INITIAL_CREDIT_AMOUNT_USD,
       { db with
          orgCredits := tblSet db.orgCredits org
            ⟨b + INITIAL_CREDIT_AMOUNT_USD, true⟩,
          balanceOps := db.balanceOps ++
            [.read org, .write org (b + INITIAL_CREDIT_AMOUNT_USD)] }) := by
  simp [getOrganizationCreditBalanceFromDB, h]

/-- Unfolding: a balance read of a record whose grant flag is already set. -/
lemma getOrg_applied (db : DB) (org : String) (b : ℚ)
    (h : tblGet db.orgCredits org = some ⟨b, true⟩) :
    getOrganizationCreditBalanceFromDB db org =
      (b, { db with balanceOps := db.balanceOps ++ [.read org] }) := by
  simp [getOrganizationCreditBalanceFromDB, h]

/-- Unfolding: a raw balance read of an existing record. -/
lemma getRaw_some (db : DB) (org : String) (r : CreditRecord)
    (h : tblGet db.orgCredits org = some r) :
    getRawCreditBalanceForUpdate db org =
      (r.current_balance_usd,
       { db with balanceOps := db.balanceOps ++ [.read org] }) := by
  simp [getRawCreditBalanceForUpdate, h]

/-! ## C5 — lazy initial grant -/

/-- C5: a first balance read for an entity with no record creates the record
with the $2.00 initial grant and the flag set and returns the grant; a second
read returns the same value with the table unchanged; and a read of a record
whose flag is `false` adds the grant once, flips the flag and returns the new
balance. -/
theorem C5_initial_grant (db : DB) (org : String) (b : ℚ) :
    (tblGet db.orgCredits org = none →
      (getOrganizationCreditBalanceFromDB db org).1 = INITIAL_CREDIT_AMOUNT_USD ∧
      tblGet ((getOrganizationCreditBalanceFromDB db org).2).orgCredits org =
        some ⟨INITIAL_CREDIT_AMOUNT_USD, true⟩ ∧
      (getOrganizationCreditBalanceFromDB
          (getOrganizationCreditBalanceFromDB db org).2 org).1 =
        INITIAL_CREDIT_AMOUNT_USD ∧
      ((getOrganizationCreditBalanceFromDB
          (getOrganizationCreditBalanceFromDB db org).2 org).2).orgCredits =
        ((getOrganizationCreditBalanceFromDB db org).2).orgCredits) ∧
    (tblGet db.orgCredits org = some ⟨b, false⟩ →
      (getOrganizationCreditBalanceFromDB db org).1 =
        b + INITIAL_CREDIT_AMOUNT_USD ∧
      tblGet ((getOrganizationCreditBalanceFromDB db org).2).orgCredits org =
        some ⟨b + INITIAL_CREDIT_AMOUNT_USD, true⟩) := by
  constructor
  · intro h
    have e1 := getOrg_none db org h
    have hget : tblGet ((getOrganizationCreditBalanceFromDB db org).2).orgCredits org =
        some ⟨INITIAL_CREDIT_AMOUNT_USD, true⟩ := by
      rw [e1]
      exact tblGet_append_of_none _ _ _ h
    have e2 := getOrg_applied _ org _ hget
    exact ⟨by rw [e1], hget, by rw [e2], by rw [e2]⟩
  · intro h
    have e := getOrg_unapplied db org b h
    constructor
    · rw [e]
    · rw [e]
      simp [tblGet_tblSet_self, h]

/-- Witness for C5: a fresh organization and one with an unapplied-flag
record at balance $0.50. -/
theorem C5_initial_grant_witness :
    (getOrganizationCreditBalanceFromDB emptyDB "o1").1 =
      INITIAL_CREDIT_AMOUNT_USD ∧
    (getOrganizationCreditBalanceFromDB
        { emptyDB with orgCredits := [("o1", ⟨1/2, false⟩)] } "o1").1 =
      1/2 + INITIAL_CREDIT_AMOUNT_USD :=
  ⟨((C5_initial_grant emptyDB "o1" 0).1 rfl).1,
   ((C5_initial_grant { emptyDB with orgCredits := [("o1", ⟨1/2, false⟩)] }
      "o1" (1/2)).2 rfl).1⟩

/-- Unfolding: the paid branch of event processing — a grant-applied record
with sufficient balance is debited and the event marked `paid_by_credits`. -/
lemma processEvent_paid (db : DB) (ev : BillableEventData) (bal : ℚ)
    (hrec : tblGet db.orgCredits ev.organization_id = some ⟨bal, true⟩)
    (hne : ev.cost_usd ≠ 0) (hsuff : ev.cost_usd ≤ bal) :
    processEventWithCredits db ev =
      .ok (updateBillableEventStatus
        { db with
            orgCredits := updateBalanceColumn db.orgCredits ev.organization_id
              (bal - ev.cost_usd),
            balanceOps := db.balanceOps ++ [.read ev.organization_id] ++
              [.write ev.organization_id (bal - ev.cost_usd)] }
        ev.id "paid_by_credits") := by
  have e1 := getOrg_applied db ev.organization_id bal hrec
  simp [processEventWithCredits, hne, e1, updateOrganizationCreditBalanceInDB, hsuff]

/-- Unfolding: the insufficient-credits branch — a grant-applied record with
balance below the cost is left unwritten and the event marked
`payment_failed_insufficient_credits`. -/
lemma processEvent_insufficient (db : DB) (ev : BillableEventData) (bal : ℚ)
    (hrec : tblGet db.orgCredits ev.organization_id = some ⟨bal, true⟩)
    (hne : ev.cost_usd ≠ 0) (hlt : bal < ev.cost_usd) :
    processEventWithCredits db ev =
      .ok (updateBillableEventStatus
        { db with balanceOps := db.balanceOps ++ [.read ev.organization_id] }
        ev.id "payment_failed_insufficient_credits") := by
  have e1 := getOrg_applied db ev.organization_id bal hrec
  simp [processEventWithCredits, hne, e1, not_le.mpr hlt]

/-! ## C6 — `setBalance` on a missing record -/

/-- C6 (evaluation at the failing input): `updateOrganizationCreditBalanceInDB`
on a store with no record for the organization resolves successfully — the
supabase `UPDATE ... eq(organization_id)` call matches zero rows, which
PostgREST does not report as an error — while writing no record at all,
contradicting the specified `NotFoundError`. -/
theorem C6_setBalance_missing_record_silent_noop :
    updateOrganizationCreditBalanceInDB emptyDB "o1" 5 =
      .ok { emptyDB with balanceOps := [.write "o1" 5] } ∧
    ((updateOrganizationCreditBalanceInDB emptyDB "o1" 5).toOption.getD
        emptyDB).orgCredits = [] := by
  constructor <;>
    simp [updateOrganizationCreditBalanceInDB, updateBalanceColumn, emptyDB,
      Except.toOption]

/-! ## C2 — sufficient-balance deduction -/

/-- A concrete store for C2: organization `o1` holds $2.00 (grant applied),
the ledger is empty, and one pending event of cost $1.00 exists. -/
def dbC2 : DB :=
  { emptyDB with
      orgCredits := [("o1", ⟨2, true⟩)],
      billableEvents := [⟨"e1", "o1", "iv1", "r1", 300, 1, "pending_credit_check"⟩] }

/-- The event processed in the C2 scenario. -/
def evC2 : BillableEventData := ⟨"e1", "o1", "iv1", "r1", 300, 1, "pending_credit_check"⟩

/-- C2 (counterexample): at balance $2.00 and cost $1.00 the event ends in
`paid_by_credits` with the balance debited to $1.00, but the ledger is left
empty — no `usage` Ledger Transaction is appended, refuting the claim that
exactly one is. -/
theorem C2_counterexample :
    eventStatus (afterProcess dbC2 evC2) "e1" = some "paid_by_credits" ∧
    orgBalance (afterProcess dbC2 evC2) "o1" = some 1 ∧
    dbC2.creditTransactions = [] ∧
    (afterProcess dbC2 evC2).creditTransactions = [] ∧
    (afterProcess dbC2 evC2).creditTransactions.length ≠
      dbC2.creditTransactions.length + 1 := by
  have hrec : tblGet dbC2.orgCredits evC2.organization_id = some ⟨2, true⟩ := by
    simp [dbC2, evC2, tblGet]
  have hrun := processEvent_paid dbC2 evC2 2 hrec (by norm_num [evC2]) (by norm_num [evC2])
  have h2 : afterProcess dbC2 evC2 = updateBillableEventStatus
      { dbC2 with
          orgCredits := updateBalanceColumn dbC2.orgCredits evC2.organization_id
            (2 - evC2.cost_usd),
          balanceOps := dbC2.balanceOps ++ [.read evC2.organization_id] ++
            [.write evC2.organization_id (2 - evC2.cost_usd)] }
      evC2.id "paid_by_credits" := by
    simp [afterProcess, hrun, Except.toOption]
  rw [h2]
  refine ⟨?_, ?_, rfl, rfl, by simp [updateBillableEventStatus, dbC2]⟩
  · norm_num [updateBillableEventStatus, eventStatus, dbC2, evC2]
  · norm_num [updateBillableEventStatus, orgBalance, updateBalanceColumn, tblGet,
      dbC2, evC2]

/-- C2 (amended): for every billable event with positive cost whose
organization has a grant-applied balance record with balance at least the
cost, processing ends the event in `paid_by_credits` and debits the stored
balance by exactly the cost; no Ledger Transaction is appended (the credit
ledger is not maintained on this path). -/
theorem C2_amended_paid_by_credits (db : DB) (ev : BillableEventData) (bal : ℚ)
    (hrec : tblGet db.orgCredits ev.organization_id = some ⟨bal, true⟩)
    (hpos : 0 < ev.cost_usd) (hsuff : ev.cost_usd ≤ bal)
    (hmem : ev ∈ db.billableEvents) :
    eventStatus (afterProcess db ev) ev.id = some "paid_by_credits" ∧
    orgBalance (afterProcess db ev) ev.organization_id =
      some (bal - ev.cost_usd) ∧
    (afterProcess db ev).creditTransactions = db.creditTransactions := by
  have hrun := processEvent_paid db ev bal hrec (ne_of_gt hpos) hsuff
  have h2 : afterProcess db ev = updateBillableEventStatus
      { db with
          orgCredits := updateBalanceColumn db.orgCredits ev.organization_id
            (bal - ev.cost_usd),
          balanceOps := db.balanceOps ++ [.read ev.organization_id] ++
            [.write ev.organization_id (bal - ev.cost_usd)] }
      ev.id "paid_by_credits" := by
    simp [afterProcess, hrun, Except.toOption]
  rw [h2]
  refine ⟨?_, ?_, rfl⟩
  · exact eventStatus_update _ ev.id _ ⟨ev, hmem, rfl⟩
  · simp [updateBillableEventStatus, orgBalance, tblGet_updateBalanceColumn_self, hrec]

/-- Witness for the amended C2: organization at $5.00, event cost $1.00. -/
theorem C2_amended_witness :
    eventStatus
      (afterProcess
        { emptyDB with
            orgCredits := [("o2", ⟨5, true⟩)],
            billableEvents := [⟨"e2", "o2", "iv2", "r2", 300, 1, "pending_credit_check"⟩] }
        ⟨"e2", "o2", "iv2", "r2", 300, 1, "pending_credit_check"⟩) "e2" =
      some "paid_by_credits" ∧
    orgBalance
      (afterProcess
        { emptyDB with
            orgCredits := [("o2", ⟨5, true⟩)],
            billableEvents := [⟨"e2", "o2", "iv2", "r2", 300, 1, "pending_credit_check"⟩] }
        ⟨"e2", "o2", "iv2", "r2", 300, 1, "pending_credit_check"⟩) "o2" =
      some (5 - 1) :=
  ⟨(C2_amended_paid_by_credits _ _ 5 (by simp [tblGet]) (by norm_num) (by norm_num)
      (List.mem_singleton.mpr rfl)).1,
   (C2_amended_paid_by_credits _ _ 5 (by simp [tblGet]) (by norm_num) (by norm_num)
      (List.mem_singleton.mpr rfl)).2.1⟩

/-! ## C8 — insufficient-balance frame property -/

/-- A concrete store for C8: organization `o1` holds $0.50 with the initial
grant *not yet applied*, and one pending event of cost $3.00 exists. -/
def dbC8 : DB :=
  { emptyDB with
      orgCredits := [("o1", ⟨1/2, false⟩)],
      billableEvents := [⟨"e1", "o1", "iv1", "r1", 900, 3, "pending_credit_check"⟩] }

/-- The event processed in the C8 scenario. -/
def evC8 : BillableEventData := ⟨"e1", "o1", "iv1", "r1", 900, 3, "pending_credit_check"⟩

/-- C8 (counterexample): starting balance $0.50 < cost $3.00 and the event
does end in `payment_failed_insufficient_credits`, but the stored balance is
*not* left unchanged: the balance read applies the $2.00 initial grant, so the
record ends at $2.50. -/
theorem C8_counterexample :
    orgBalance dbC8 "o1" = some (1/2) ∧
    eventStatus (afterProcess dbC8 evC8) "e1" =
      some "payment_failed_insufficient_credits" ∧
    orgBalance (afterProcess dbC8 evC8) "o1" = some (5/2) ∧
    orgBalance (afterProcess dbC8 evC8) "o1" ≠ orgBalance dbC8 "o1" := by
  refine ⟨by norm_num [orgBalance, dbC8, tblGet], ?_, ?_, ?_⟩ <;>
    norm_num [dbC8, evC8, emptyDB, processEventWithCredits,
      getOrganizationCreditBalanceFromDB, tblGet, tblSet,
      INITIAL_CREDIT_AMOUNT_USD, updateOrganizationCreditBalanceInDB,
      updateBalanceColumn, updateBillableEventStatus, afterProcess,
      Except.toOption, eventStatus, orgBalance]

/-- C8 (amended): for every billable event with positive cost whose
organization has a grant-applied balance record with balance strictly below
the cost, processing ends the event in `payment_failed_insufficient_credits`
while the `organization_credits` table and the ledger are left unchanged. -/
theorem C8_amended_insufficient (db : DB) (ev : BillableEventData) (bal : ℚ)
    (hrec : tblGet db.orgCredits ev.organization_id = some ⟨bal, true⟩)
    (hpos : 0 < ev.cost_usd) (hlt : bal < ev.cost_usd)
    (hmem : ev ∈ db.billableEvents) :
    eventStatus (afterProcess db ev) ev.id =
      some "payment_failed_insufficient_credits" ∧
    (afterProcess db ev).orgCredits = db.orgCredits ∧
    (afterProcess db ev).creditTransactions = db.creditTransactions := by
  have hrun := processEvent_insufficient db ev bal hrec (ne_of_gt hpos) hlt
  have h2 : afterProcess db ev = updateBillableEventStatus
      { db with balanceOps := db.balanceOps ++ [.read ev.organization_id] }
      ev.id "payment_failed_insufficient_credits" := by
    simp [afterProcess, hrun, Except.toOption]
  rw [h2]
  exact ⟨eventStatus_update _ ev.id _ ⟨ev, hmem, rfl⟩, rfl, rfl⟩

/-- Witness for the amended C8: organization at $0.50 (grant applied),
event cost $1.00. -/
theorem C8_amended_witness :
    eventStatus
      (afterProcess
        { emptyDB with
            orgCredits := [("o3", ⟨1/2, true⟩)],
            billableEvents := [⟨"e3", "o3", "iv3", "r3", 300, 1, "pending_credit_check"⟩] }
        ⟨"e3", "o3", "iv3", "r3", 300, 1, "pending_credit_check"⟩) "e3" =
      some "payment_failed_insufficient_credits" ∧
    (afterProcess
        { emptyDB with
            orgCredits := [("o3", ⟨1/2, true⟩)],
            billableEvents := [⟨"e3", "o3", "iv3", "r3", 300, 1, "pending_credit_check"⟩] }
        ⟨"e3", "o3", "iv3", "r3", 300, 1, "pending_credit_check"⟩).orgCredits =
      [("o3", ⟨1/2, true⟩)] :=
  ⟨(C8_amended_insufficient _ _ (1/2) (by simp [tblGet]) (by norm_num) (by norm_num)
      (List.mem_singleton.mpr rfl)).1,
   (C8_amended_insufficient _ _ (1/2) (by simp [tblGet]) (by norm_num) (by norm_num)
      (List.mem_singleton.mpr rfl)).2.1⟩

/-! ## C1 — ledger-sum invariant -/

lemma txSum_append (l : List CreditTx) (t : CreditTx) (et : EntityType)
    (id : String) :
    txSum (l ++ [t]) et id =
      txSum l et id +
        (if t.entityType = et ∧ t.entityId = id then t.amount else 0) := by
  by_cases h : t.entityType = et ∧ t.entityId = id
  · simp [txSum, List.filter_append, h.1, h.2]
  · rw [not_and_or] at h
    rcases h with h | h <;>
      simp [txSum, List.filter_append, h, and_comm, not_and_or]

lemma tblGet_tblSet_ne {α : Type} (l : List (String × α)) (k k' : String)
    (v : α) (h : k ≠ k') : tblGet (tblSet l k v) k' = tblGet l k' := by
  induction l with
  | nil => simp [tblSet]
  | cons p t ih =>
      rcases p with ⟨k0, v0⟩
      by_cases hc : k0 = k'
      · subst hc
        have : ¬ k0 = k := fun hh => h (hh ▸ rfl)
        simp [tblGet, tblSet, this]
      · simp [tblGet, tblSet, hc, ih]

/-- One `addCredits` call, aimed at any entity, preserves both the existence
of a given entity's row and the ledger-sum invariant for that entity. -/
lemma addCredits_preserves (db : DB) (et : EntityType) (id : String)
    (et' : EntityType) (id' : String) (a : ℚ) (ty : String)
    (hpres : (tblGet (entityTbl db et) id).isSome)
    (hinv : ledgerSum db et id = getCreditBalance db et id) :
    (tblGet (entityTbl (addCredits db et' id' a ty).2 et) id).isSome ∧
    ledgerSum (addCredits db et' id' a ty).2 et id =
      getCreditBalance (addCredits db et' id' a ty).2 et id := by
  obtain ⟨bal, hbal⟩ := Option.isSome_iff_exists.mp hpres
  have hcur : getCreditBalance db et id = bal := by
    simp [getCreditBalance, hbal]
  have hsum : ledgerSum db et id = bal := hinv.trans hcur
  by_cases hsame : et' = et ∧ id' = id
  · obtain ⟨rfl, rfl⟩ := hsame
    cases et' <;>
      simp only [entityTbl] at hbal <;>
      constructor <;>
      simp [addCredits, entityTbl, getCreditBalance, ledgerSum, txSum_append,
        tblGet_tblSet_self, hbal] <;>
      simp only [ledgerSum] at hsum <;>
      simp [hsum, getCreditBalance, hbal, entityTbl]
  · have hskip : ∀ l : List CreditTx,
        txSum (l ++ [⟨et', id', a, ty⟩]) et id = txSum l et id := by
      intro l
      rw [txSum_append]
      simp only [not_and_or] at hsame
      rcases hsame with h | h <;> simp [h]
    simp only [ledgerSum, getCreditBalance] at hsum
    cases et <;> cases et' <;> simp only [entityTbl] at hbal hsum ⊢
    case neg.user.user =>
      have hne : id' ≠ id := fun h => hsame ⟨rfl, h⟩
      constructor
      · simp [addCredits, entityTbl, tblGet_tblSet_ne _ _ _ _ hne, hbal]
      · simp [addCredits, entityTbl, getCreditBalance, ledgerSum, hskip,
          tblGet_tblSet_ne _ _ _ _ hne, hbal, hsum]
    case neg.user.organization =>
      constructor
      · simp [addCredits, entityTbl, hbal]
      · simp [addCredits, entityTbl, getCreditBalance, ledgerSum, hskip, hbal, hsum]
    case neg.organization.user =>
      constructor
      · simp [addCredits, entityTbl, hbal]
      · simp [addCredits, entityTbl, getCreditBalance, ledgerSum, hskip, hbal, hsum]
    case neg.organization.organization =>
      have hne : id' ≠ id := fun h => hsame ⟨rfl, h⟩
      constructor
      · simp [addCredits, entityTbl, tblGet_tblSet_ne _ _ _ _ hne, hbal]
      · simp [addCredits, entityTbl, getCreditBalance, ledgerSum, hskip,
          tblGet_tblSet_ne _ _ _ _ hne, hbal, hsum]

/-- Running a list of `addCredits` operations
`(entityType, entityId, amount, txType)` left to right. -/
def runCreditOps (db : DB) (ops : List (EntityType × String × ℚ × String)) : DB :=
  ops.foldl (fun d op => (addCredits d op.1 op.2.1 op.2.2.1 op.2.2.2).2) db

/-- A concrete store for the C1 counterexample: organization `o1` holds $5.00
with a matching $5.00 ledger (the invariant holds at the start), and one
pending event of cost $1.00 exists. -/
def dbC1 : DB :=
  { emptyDB with
      orgCredits := [("o1", ⟨5, true⟩)],
      creditTransactions := [⟨.organization, "o1", 5, "recharge"⟩],
      billableEvents := [⟨"e1", "o1", "iv1", "r1", 300, 1, "pending_credit_check"⟩] }

/-- The event processed in the C1 counterexample. -/
def evC1 : BillableEventData := ⟨"e1", "o1", "iv1", "r1", 300, 1, "pending_credit_check"⟩

/-- C1 (counterexample): starting from a quiescent state where the ledger sum
equals the stored balance ($5.00), one completed usage deduction
(`processEventWithCredits`, cost $1.00) debits the stored balance to $4.00
but appends no ledger record, so the signed ledger sum ($5.00) no longer
equals the stored balance. -/
theorem C1_counterexample :
    ledgerSum dbC1 .organization "o1" = 5 ∧
    orgBalance dbC1 "o1" = some 5 ∧
    orgBalance (afterProcess dbC1 evC1) "o1" = some 4 ∧
    ledgerSum (afterProcess dbC1 evC1) .organization "o1" = 5 ∧
    some (ledgerSum (afterProcess dbC1 evC1) .organization "o1") ≠
      orgBalance (afterProcess dbC1 evC1) "o1" := by
  have hrec : tblGet dbC1.orgCredits evC1.organization_id = some ⟨5, true⟩ := by
    simp [dbC1, evC1, tblGet]
  have hrun := processEvent_paid dbC1 evC1 5 hrec (by norm_num [evC1]) (by norm_num [evC1])
  have h2 : afterProcess dbC1 evC1 = updateBillableEventStatus
      { dbC1 with
          orgCredits := updateBalanceColumn dbC1.orgCredits evC1.organization_id
            (5 - evC1.cost_usd),
          balanceOps := dbC1.balanceOps ++ [.read evC1.organization_id] ++
            [.write evC1.organization_id (5 - evC1.cost_usd)] }
      evC1.id "paid_by_credits" := by
    simp [afterProcess, hrun, Except.toOption]
  refine ⟨by norm_num [ledgerSum, txSum, dbC1, emptyDB],
          by norm_num [orgBalance, dbC1, tblGet], ?_, ?_, ?_⟩ <;>
    rw [h2] <;>
    norm_num [updateBillableEventStatus, updateBalanceColumn, orgBalance,
      ledgerSum, txSum, tblGet, dbC1, evC1, emptyDB]

/-- C1 (amended): the ledger-sum invariant does hold for the credit service
(part_001): for every entity whose row exists and every finite sequence of
completed `addCredits` operations — deductions are `addCredits` with negated
amount — if the signed ledger sum equals the stored balance initially, it
still does afterwards, because every such operation appends one ledger record
equal to its balance change.  (The part_004 `organization_credits` path
refuted above maintains no ledger.) -/
theorem C1_amended_credit_service_invariant (db : DB) (et : EntityType)
    (id : String) (ops : List (EntityType × String × ℚ × String))
    (hpres : (tblGet (entityTbl db et) id).isSome)
    (hinv : ledgerSum db et id = getCreditBalance db et id) :
    ledgerSum (runCreditOps db ops) et id =
      getCreditBalance (runCreditOps db ops) et id := by
  induction ops generalizing db with
  | nil => exact hinv
  | cons op rest ih =>
      have step := addCredits_preserves db et id op.1 op.2.1 op.2.2.1 op.2.2.2 hpres hinv
      exact ih _ step.1 step.2

/-- Witness for the amended C1: a user entity at balance $0 with empty
ledger, one $10 recharge and one $3 usage deduction. -/
theorem C1_amended_witness :
    ledgerSum
      (runCreditOps { emptyDB with userTbl := [("u1", 0)] }
        [(.user, "u1", 10, "recharge"), (.user, "u1", -3, "usage")])
      .user "u1" =
    getCreditBalance
      (runCreditOps { emptyDB with userTbl := [("u1", 0)] }
        [(.user, "u1", 10, "recharge"), (.user, "u1", -3, "usage")])
      .user "u1" :=
  C1_amended_credit_service_invariant _ .user "u1" _
    (by simp [entityTbl, tblGet])
    (by simp [ledgerSum, txSum, getCreditBalance, entityTbl, tblGet, emptyDB])

/-! ## C3, C10 — webhook crediting and idempotency -/

/-- Unfolding: `addCreditsToOrganization` on a grant-applied record adds the
amount to the stored balance. -/
lemma addCreditsToOrg_applied (db : DB) (org : String) (bal a : ℚ)
    (hrec : tblGet db.orgCredits org = some ⟨bal, true⟩) (hpos : 0 < a) :
    addCreditsToOrganization db org a =
      .ok { db with
            orgCredits := updateBalanceColumn db.orgCredits org (bal + a),
            balanceOps := db.balanceOps ++
              [.read org, .read org, .write org (bal + a)],
            creditCalls := db.creditCalls ++ [(org, a)] } := by
  simp [addCreditsToOrganization, not_le.mpr hpos,
    getOrganizationCreditBalanceFromDB, getRawCreditBalanceForUpdate,
    updateOrganizationCreditBalanceInDB, hrec]

/-- The function `addCreditsToOrganization` with a positive amount always succeeds and
leaves `credit_purchases` and the ledger untouched. -/
lemma addCreditsToOrg_ok (db : DB) (org : String) (a : ℚ) (hpos : 0 < a) :
    ∃ db2, addCreditsToOrganization db org a = .ok db2 ∧
      db2.creditPurchases = db.creditPurchases ∧
      db2.creditTransactions = db.creditTransactions := by
  unfold addCreditsToOrganization
  rw [if_neg (not_le.mpr hpos)]
  rcases h : tblGet db.orgCredits org with _ | r
  · refine ⟨_, rfl, ?_, ?_⟩ <;>
      simp [getOrganizationCreditBalanceFromDB, getRawCreditBalanceForUpdate,
        updateOrganizationCreditBalanceInDB, h, tblGet_append_of_none _ _ _ h]
  · rcases r with ⟨b, flag⟩
    cases flag <;>
      refine ⟨_, rfl, ?_, ?_⟩ <;>
      simp [getOrganizationCreditBalanceFromDB, getRawCreditBalanceForUpdate,
        updateOrganizationCreditBalanceInDB, h, tblGet_tblSet_self]

lemma any_purchase_of_mem (l : List CreditPurchase) (pid oid : String)
    (p : CreditPurchase) (hp : p ∈ l) (hid : p.id = pid) :
    l.any (fun q => q.id == pid || q.lemonsqueezy_order_id == oid) = true := by
  simp only [List.any_eq_true, Bool.or_eq_true, beq_iff_eq]
  exact ⟨p, hp, Or.inl hid⟩

lemma mem_setPurchaseStatus_append (l : List CreditPurchase)
    (newP : CreditPurchase) (pid s : String) (hid : newP.id = pid) :
    { newP with status := s } ∈ setPurchaseStatus (l ++ [newP]) pid s := by
  unfold setPurchaseStatus
  refine List.mem_map.mpr ⟨newP, by simp, ?_⟩
  rw [if_pos hid]

lemma purchaseById_set_append (l : List CreditPurchase)
    (newP : CreditPurchase) (pid s : String)
    (hfreshId : ∀ p ∈ l, (p.id == pid) = false) (hid : newP.id = pid) :
    (setPurchaseStatus (l ++ [newP]) pid s).find? (fun p => p.id == pid) =
      some { newP with status := s } := by
  induction l with
  | nil => simp [setPurchaseStatus, hid]
  | cons q t ih =>
      have hq : ¬ q.id = pid := by simpa using hfreshId q (by simp)
      rw [List.cons_append]
      unfold setPurchaseStatus
      rw [List.map_cons, if_neg hq,
        List.find?_cons_of_neg _ (by simpa using hq)]
      exact ih fun p hp => hfreshId p (List.mem_cons_of_mem _ hp)

/-- C3: a payment confirmation delivered twice with the same provider order id
(unique-constraint collision on the second insert): the second run returns
the 200 "Duplicate event" response, changes nothing — no crediting call, no
ledger append, no store write — and across the two deliveries the balance is
credited exactly once and `addCreditsToOrganization` is invoked exactly
once. -/
theorem C3_webhook_duplicate_idempotent (db : DB) (oid org pid : String)
    (total : Option ℚ) (bal : ℚ)
    (hfresh : db.creditPurchases.any (fun p =>
        p.id == pid || p.lemonsqueezy_order_id == oid) = false)
    (hpos : 0 < creditsForTotal total)
    (hrec : tblGet db.orgCredits org = some ⟨bal, true⟩) :
    (webhookOrderCreated (webhookOrderCreated db oid org pid total).2
        oid org pid total).1 =
      ⟨200, "Duplicate event: Already processed or being processed."⟩ ∧
    (webhookOrderCreated (webhookOrderCreated db oid org pid total).2
        oid org pid total).2 =
      (webhookOrderCreated db oid org pid total).2 ∧
    orgBalance (webhookOrderCreated (webhookOrderCreated db oid org pid total).2
        oid org pid total).2 org =
      some (bal + (creditsForTotal total : ℚ)) ∧
    (webhookOrderCreated (webhookOrderCreated db oid org pid total).2
        oid org pid total).2.creditTransactions = db.creditTransactions ∧
    (webhookOrderCreated (webhookOrderCreated db oid org pid total).2
        oid org pid total).2.creditCalls =
      db.creditCalls ++ [(org, (creditsForTotal total : ℚ))] := by
  have hposQ : (0 : ℚ) < ((creditsForTotal total : ℤ) : ℚ) := by exact_mod_cast hpos
  have hadd := addCreditsToOrg_applied
      { db with creditPurchases := db.creditPurchases ++
          [⟨pid, oid, org, amountUsdOf total, creditsForTotal total,
            "pending_processing"⟩] }
      org bal ((creditsForTotal total : ℤ) : ℚ) hrec hposQ
  have hrun1 : webhookOrderCreated db oid org pid total =
      (⟨200, "Webhook processed successfully."⟩,
       { db with
          orgCredits := updateBalanceColumn db.orgCredits org
            (bal + (creditsForTotal total : ℚ)),
          creditPurchases := setPurchaseStatus
            (db.creditPurchases ++
              [⟨pid, oid, org, amountUsdOf total, creditsForTotal total,
                "pending_processing"⟩]) pid "processed",
          balanceOps := db.balanceOps ++
            [.read org, .read org, .write org (bal + (creditsForTotal total : ℚ))],
          creditCalls := db.creditCalls ++
            [(org, (creditsForTotal total : ℚ))] }) := by
    simp [webhookOrderCreated, hfresh, hpos, hadd]
  have hmem := mem_setPurchaseStatus_append db.creditPurchases
      ⟨pid, oid, org, amountUsdOf total, creditsForTotal total,
        "pending_processing"⟩ pid "processed" rfl
  have hany : (setPurchaseStatus
      (db.creditPurchases ++
        [⟨pid, oid, org, amountUsdOf total, creditsForTotal total,
          "pending_processing"⟩]) pid "processed").any (fun q =>
        q.id == pid || q.lemonsqueezy_order_id == oid) = true :=
    any_purchase_of_mem _ pid oid _ hmem rfl
  have hrun2 : webhookOrderCreated (webhookOrderCreated db oid org pid total).2
      oid org pid total =
      (⟨200, "Duplicate event: Already processed or being processed."⟩,
       (webhookOrderCreated db oid org pid total).2) := by
    rw [hrun1]
    simp [webhookOrderCreated, hany]
  refine ⟨by rw [hrun2], by rw [hrun2], ?_, ?_, ?_⟩ <;>
    rw [hrun2, hrun1] <;>
    simp [orgBalance, tblGet_updateBalanceColumn_self, hrec]

/-- Witness for C3: organization `o1` at $2.00 receives a $10.00 order
(1000 cents, 100 credits) delivered twice. -/
theorem C3_webhook_duplicate_idempotent_witness :
    (webhookOrderCreated
        (webhookOrderCreated { emptyDB with orgCredits := [("o1", ⟨2, true⟩)] }
          "ord1" "o1" "cp1" (some 1000)).2
        "ord1" "o1" "cp1" (some 1000)).1 =
      ⟨200, "Duplicate event: Already processed or being processed."⟩ ∧
    orgBalance
      (webhookOrderCreated
        (webhookOrderCreated { emptyDB with orgCredits := [("o1", ⟨2, true⟩)] }
          "ord1" "o1" "cp1" (some 1000)).2
        "ord1" "o1" "cp1" (some 1000)).2 "o1" =
      some (2 + (creditsForTotal (some 1000) : ℚ)) :=
  ⟨(C3_webhook_duplicate_idempotent _ "ord1" "o1" "cp1" (some 1000) 2
      (by simp [emptyDB]) (by norm_num [creditsForTotal, amountUsdOf])
      (by simp [tblGet])).1,
   (C3_webhook_duplicate_idempotent _ "ord1" "o1" "cp1" (some 1000) 2
      (by simp [emptyDB]) (by norm_num [creditsForTotal, amountUsdOf])
      (by simp [tblGet])).2.2.1⟩

/-- C10: on a fresh (non-colliding) `order_created` delivery the handler
answers 200 and stores a purchase record, marked `processed`, whose
`credits_granted` is the handler's credit computation; for a positive total
of `t` cents the credits equal `Math.floor((t / 100) × 10)`; and for a
missing, non-numeric, zero or negative total no crediting call is made — the
`organization_credits` table and the `creditCalls` trace are untouched — yet
the record is still marked `processed`. -/
theorem C10_webhook_credit_formula (db : DB) (oid org pid : String)
    (total : Option ℚ)
    (hfresh : db.creditPurchases.any (fun p =>
        p.id == pid || p.lemonsqueezy_order_id == oid) = false) :
    (webhookOrderCreated db oid org pid total).1.status = 200 ∧
    (purchaseById (webhookOrderCreated db oid org pid total).2 pid).map
        (fun p => p.credits_granted) = some (creditsForTotal total) ∧
    (purchaseById (webhookOrderCreated db oid org pid total).2 pid).map
        (fun p => p.status) = some "processed" ∧
    (∀ t, total = some t → 0 < t → creditsForTotal total = ⌊t / 100 * 10⌋) ∧
    (total = none →
      (webhookOrderCreated db oid org pid total).2.creditCalls = db.creditCalls ∧
      (webhookOrderCreated db oid org pid total).2.orgCredits = db.orgCredits) ∧
    (∀ t, total = some t → t ≤ 0 →
      (webhookOrderCreated db oid org pid total).2.creditCalls = db.creditCalls ∧
      (webhookOrderCreated db oid org pid total).2.orgCredits = db.orgCredits) := by
  have hfreshId : ∀ p ∈ db.creditPurchases, (p.id == pid) = false := by
    intro p hp
    have := List.any_eq_true.not.mp (by rw [hfresh]; simp)
    push_neg at this
    have h2 := this p hp
    simpa using fun h => h2 (by simp [h])
  have hmain : (webhookOrderCreated db oid org pid total).1 =
      ⟨200, "Webhook processed successfully."⟩ ∧
      (webhookOrderCreated db oid org pid total).2.creditPurchases =
        setPurchaseStatus
          (db.creditPurchases ++
            [⟨pid, oid, org, amountUsdOf total, creditsForTotal total,
              "pending_processing"⟩]) pid "processed" := by
    by_cases hcg : 0 < creditsForTotal total
    · obtain ⟨db2, heq, hP, hT⟩ := addCreditsToOrg_ok
        { db with creditPurchases := db.creditPurchases ++
            [⟨pid, oid, org, amountUsdOf total, creditsForTotal total,
              "pending_processing"⟩] }
        org ((creditsForTotal total : ℤ) : ℚ) (by exact_mod_cast hcg)
      constructor <;> simp [webhookOrderCreated, hfresh, hcg, heq, hP]
    · constructor <;> simp [webhookOrderCreated, hfresh, hcg]
  have hfind := purchaseById_set_append db.creditPurchases
      ⟨pid, oid, org, amountUsdOf total, creditsForTotal total,
        "pending_processing"⟩ pid "processed" hfreshId rfl
  have hzero : ∀ hng : ¬ 0 < creditsForTotal total,
      (webhookOrderCreated db oid org pid total).2.creditCalls = db.creditCalls ∧
      (webhookOrderCreated db oid org pid total).2.orgCredits = db.orgCredits := by
    intro hng
    constructor <;> simp [webhookOrderCreated, hfresh, hng]
  refine ⟨by rw [hmain.1], ?_, ?_, ?_, ?_, ?_⟩
  · rw [purchaseById, hmain.2, hfind]
    rfl
  · rw [purchaseById, hmain.2, hfind]
    rfl
  · rintro t rfl ht
    have hq : (0 : ℚ) < t / 100 := by positivity
    simp [creditsForTotal, amountUsdOf, hq]
  · rintro rfl
    exact hzero (by norm_num [creditsForTotal, amountUsdOf])
  · rintro t rfl ht
    refine hzero ?_
    have hq : t / 100 ≤ 0 := by
      apply div_nonpos_of_nonpos_of_nonneg ht
      norm_num
    simp [creditsForTotal, amountUsdOf, not_lt.mpr hq]

/-- Witness for C10: a fresh $10.00 order (1000 cents) on an empty purchase
table grants 100 credits with the record marked processed, and a fresh $0
order makes no crediting call. -/
theorem C10_webhook_credit_formula_witness :
    (purchaseById (webhookOrderCreated emptyDB "ordA" "oA" "cpA" (some 1000)).2
        "cpA").map (fun p => p.credits_granted) =
      some (creditsForTotal (some 1000)) ∧
    creditsForTotal (some 1000) = ⌊(1000 : ℚ) / 100 * 10⌋ ∧
    (webhookOrderCreated emptyDB "ordB" "oB" "cpB" (some 0)).2.creditCalls =
      emptyDB.creditCalls :=
  ⟨(C10_webhook_credit_formula emptyDB "ordA" "oA" "cpA" (some 1000)
      (by simp [emptyDB])).2.1,
   (C10_webhook_credit_formula emptyDB "ordA" "oA" "cpA" (some 1000)
      (by simp [emptyDB])).2.2.2.1 1000 rfl (by norm_num),
   ((C10_webhook_credit_formula emptyDB "ordB" "oB" "cpB" (some 0)
      (by simp [emptyDB])).2.2.2.2.2 0 rfl le_rfl).1⟩

end FoloUp
